import Mathlib

/-!
Verification development for the research-agent repository.

The definitions below are a shallow embedding of the repository's Python
sources:
  * `research_agent.py` — the `ResearchAgent` class: the `search_web` and
    `fetch_webpage_content` tools, and the result-synthesis step inlined in
    `ResearchAgent.research` (lines 318–348).
  * `context7_integration.py` — the primary provider client
    (`Context7Search.search`, `Context7Search.fetch_content`) and the
    secondary scraping provider (`fallback_search`, `fallback_fetch`).

Network I/O is modelled by environment records carrying the outcome of each
network interaction (`Except` for a raised exception versus a payload).
Python's `json.loads`, `re.search` brace extraction, pydantic validation of
`ResearchFindings`, and the BeautifulSoup text-extraction pipeline are
modelled faithfully at the level the source uses them; simplifications are
noted on each definition.
-/

/-- Model of a decoded JSON value, as produced by Python's `json.loads`.
Numbers are kept as their lexeme: the synthesis code never computes with
them, it only type-checks them (a number is never a valid `str` field). -/
inductive Json where
  | null
  | bool (b : Bool)
  | num (lexeme : String)
  | str (s : String)
  | arr (xs : List Json)
  | obj (fields : List (String × Json))

/-- The four JSON whitespace characters accepted by `json.loads`. -/
def jsonWs : Char → Bool
  | ' ' | '\t' | '\n' | '\r' => true
  | _ => false

/-- Drop leading JSON whitespace. -/
def skipWs (cs : List Char) : List Char := cs.dropWhile jsonWs

/-- JSON string escapes handled by the model. `\uXXXX` escapes are not
modelled (inputs using them are treated as parse failures); none of the
behaviour settled below depends on them. -/
def escChar : Char → Option Char
  | '"' => some '"'
  | '\\' => some '\\'
  | '/' => some '/'
  | 'b' => some (Char.ofNat 8)
  | 'f' => some (Char.ofNat 12)
  | 'n' => some (Char.ofNat 10)
  | 'r' => some (Char.ofNat 13)
  | 't' => some (Char.ofNat 9)
  | _ => none

/-- Parse the body of a JSON string after the opening quote. `esc` is true
when the previous character was a backslash. Raw control characters are
rejected, as in `json.loads` strict mode. -/
def parseStrAux : List Char → Bool → List Char → Option (List Char × List Char)
  | [], _, _ => none
  | c :: rest, true, acc =>
    match escChar c with
    | some ec => parseStrAux rest false (acc ++ [ec])
    | none => none
  | c :: rest, false, acc =>
    if c == '"' then some (acc, rest)
    else if c == '\\' then parseStrAux rest true acc
    else if c.toNat < 32 then none
    else parseStrAux rest false (acc ++ [c])

/-- Parse a JSON number lexeme (`-? int frac? exp?`), returning the lexeme
and the remaining input. -/
def parseNumber (cs : List Char) : Option (List Char × List Char) :=
  let signed := cs.head? == some '-'
  let sign : List Char := if signed then ['-'] else []
  let cs1 := if signed then cs.tail else cs
  let intPart := cs1.takeWhile Char.isDigit
  let cs2 := cs1.dropWhile Char.isDigit
  if intPart.isEmpty then none
  else if intPart.length > 1 && intPart.head? == some '0' then none
  else
    let fracRes : Option (List Char × List Char) :=
      if cs2.head? == some '.' then
        let ds := cs2.tail.takeWhile Char.isDigit
        if ds.isEmpty then none
        else some ('.' :: ds, cs2.tail.dropWhile Char.isDigit)
      else some ([], cs2)
    match fracRes with
    | none => none
    | some (fracPart, cs3) =>
      match cs3 with
      | c :: rest =>
        if c == 'e' || c == 'E' then
          let expSigned := rest.head? == some '+' || rest.head? == some '-'
          let expSign : List Char := match rest.head? with
            | some s => if expSigned then [s] else []
            | none => []
          let rest2 := if expSigned then rest.tail else rest
          let ds := rest2.takeWhile Char.isDigit
          if ds.isEmpty then none
          else some (sign ++ intPart ++ fracPart ++ c :: expSign ++ ds,
                     rest2.dropWhile Char.isDigit)
        else some (sign ++ intPart ++ fracPart, cs3)
      | [] => some (sign ++ intPart ++ fracPart, [])

/-- Parsing mode: a single value, the members of an object (accumulated so
far), or the elements of an array. -/
inductive PMode where
  | value
  | members (acc : List (String × Json))
  | elems (acc : List Json)

/-- Fuel-driven recursive-descent JSON parser modelling `json.loads`.
Objects keep their members in textual order (duplicate keys are resolved by
`jsonGet`, which, like a Python dict built by `json.loads`, keeps the last
occurrence). -/
def parseCore : Nat → PMode → List Char → Option (Json × List Char)
  | 0, _, _ => none
  | fuel + 1, PMode.value, cs =>
    match skipWs cs with
    | [] => none
    | c :: rest =>
      if c == '"' then
        match parseStrAux rest false [] with
        | some (s, r) => some (Json.str (String.mk s), r)
        | none => none
      else if c == '\x7b' then
        match skipWs rest with
        | '\x7d' :: r => some (Json.obj [], r)
        | cs2 => parseCore fuel (PMode.members []) cs2
      else if c == '[' then
        match skipWs rest with
        | ']' :: r => some (Json.arr [], r)
        | cs2 => parseCore fuel (PMode.elems []) cs2
      else if c == 't' then
        match rest with
        | 'r' :: 'u' :: 'e' :: r => some (Json.bool true, r)
        | _ => none
      else if c == 'f' then
        match rest with
        | 'a' :: 'l' :: 's' :: 'e' :: r => some (Json.bool false, r)
        | _ => none
      else if c == 'n' then
        match rest with
        | 'u' :: 'l' :: 'l' :: r => some (Json.null, r)
        | _ => none
      else
        match parseNumber (c :: rest) with
        | some (n, r) => some (Json.num (String.mk n), r)
        | none => none
  | fuel + 1, PMode.members acc, cs =>
    match skipWs cs with
    | '"' :: rest =>
      match parseStrAux rest false [] with
      | none => none
      | some (key, r1) =>
        match skipWs r1 with
        | ':' :: r2 =>
          match parseCore fuel PMode.value r2 with
          | none => none
          | some (v, r3) =>
            match skipWs r3 with
            | ',' :: r4 => parseCore fuel (PMode.members (acc ++ [(String.mk key, v)])) r4
            | '\x7d' :: r4 => some (Json.obj (acc ++ [(String.mk key, v)]), r4)
            | _ => none
        | _ => none
    | _ => none
  | fuel + 1, PMode.elems acc, cs =>
    match parseCore fuel PMode.value cs with
    | none => none
    | some (v, r1) =>
      match skipWs r1 with
      | ',' :: r2 => parseCore fuel (PMode.elems (acc ++ [v])) r2
      | ']' :: r2 => some (Json.arr (acc ++ [v]), r2)
      | _ => none

/-- Model of `json.loads`: parse one JSON value, requiring that only
whitespace follows it (as `json.loads` raises on trailing data). -/
def Json.parse (s : String) : Option Json :=
  match parseCore (2 * s.length + 4) PMode.value s.data with
  | some (j, rest) => if (skipWs rest).isEmpty then some j else none
  | none => none

/-- Look a key up in a decoded object. `json.loads` builds a Python dict,
where a duplicated key keeps its last occurrence. -/
def jsonGet (fields : List (String × Json)) (k : String) : Option Json :=
  fields.foldl (fun acc p => if p.1 == k then some p.2 else acc) none

/-- Pydantic (v2) validation of a `str` field: only a JSON string is
accepted (numbers and booleans are not coerced to `str`). -/
def asStr : Json → Option String
  | Json.str s => some s
  | _ => none

/-- Pydantic (v2) validation of a `list[str]` field. -/
def asStrList : Json → Option (List String)
  | Json.arr xs => xs.mapM asStr
  | _ => none

/-- `ResearchFindings` pydantic model, `research_agent.py` lines 45–51.
`timestamp` has a `default_factory` producing the current time; the model
passes that generation-time value in explicitly as `now`. -/
structure ResearchFindings where
  query : String
  summary : String
  key_findings : List String
  sources : List String
  timestamp : String
deriving DecidableEq, Repr

/-- Index of the first occurrence of a character in a list. -/
def firstIdx (p : Char) : List Char → Option Nat
  | [] => none
  | c :: cs => if c == p then some 0 else (firstIdx p cs).map (· + 1)

/-- Model of `re.search` with the pattern matching a brace-delimited region
under DOTALL (`research_agent.py` line 322): the leftmost match starts at
the first opening brace, and the greedy interior extends to the last
closing brace of the whole text; there is a match exactly when some closing
brace occurs strictly after the first opening brace. -/
def extractBraces (s : String) : Option String :=
  match firstIdx '\x7b' s.data, firstIdx '\x7d' s.data.reverse with
  | some i, some jr =>
    let j := s.data.length - 1 - jr
    if i < j then some (String.mk ((s.data.drop i).take (j + 1 - i))) else none
  | _, _ => none

/-- The `timestamp` field of `ResearchFindings(**findings_dict)`: the
decoded value when present (it must then be a string), otherwise the
freshly generated default (`research_agent.py` line 51). -/
def timestampField (fields : List (String × Json)) (now : String) : Option String :=
  match jsonGet fields "timestamp" with
  | none => some now
  | some tj => asStr tj

/-- Model of `ResearchFindings(**findings_dict)` (`research_agent.py`
line 325) under pydantic v2: the four required fields must be present with
the right types, extra keys are ignored, and the result is a validation
fault (`none`) otherwise. -/
def researchFindingsOfJson : Json → String → Option ResearchFindings
  | Json.obj fields, now =>
    (jsonGet fields "query").bind fun qj =>
    (jsonGet fields "summary").bind fun sj =>
    (jsonGet fields "key_findings").bind fun kfj =>
    (jsonGet fields "sources").bind fun srcj =>
    (asStr qj).bind fun q =>
    (asStr sj).bind fun s =>
    (asStrList kfj).bind fun kf =>
    (asStrList srcj).bind fun src =>
    (timestampField fields now).bind fun ts =>
    some ⟨q, s, kf, src, ts⟩
  | _, _ => none

/-- The result-synthesis step of `ResearchAgent.research`
(`research_agent.py` lines 318–348). A brace-delimited region is extracted
from the backend's raw text; if none exists the first degraded shape is
built (three generic findings, two generic sources); if one exists but
decoding (`json.loads`) or validation (`ResearchFindings(**...)`) faults,
the exception handler builds the second degraded shape (two generic
findings, the single source "Agent analysis"). `now` is the value the
`timestamp` default factory would produce. -/
def synthesize (raw_text query now : String) : ResearchFindings :=
  match extractBraces raw_text with
  | none =>
    { query := query
      summary := raw_text
      key_findings := ["Research completed using available tools",
                       "Multiple sources were consulted",
                       "Findings synthesized from web search and content analysis"]
      sources := ["Web search results", "Content analysis"]
      timestamp := now }
  | some region =>
    match (Json.parse region).bind (fun j => researchFindingsOfJson j now) with
    | some findings => findings
    | none =>
      { query := query
        summary := raw_text
        key_findings := ["Research completed using available tools",
                         "Multiple sources were consulted"]
        sources := ["Agent analysis"]
        timestamp := now }

/-- Top-level `ResearchAgent.research` (`research_agent.py` lines 290–361)
at the granularity of its one unshielded collaborator: the generation
backend either faults (the `except` clause re-raises the exception
unchanged) or yields the raw response text, which is always synthesized
into a `ResearchFindings`. -/
def research (backendResult : Except String String) (query now : String) :
    Except String ResearchFindings :=
  match backendResult with
  | Except.error e => Except.error e
  | Except.ok raw => Except.ok (synthesize raw query now)

/-- A decoded result item as the providers deliver it: a Python dict whose
keys may each be absent (the tool reads them with `item.get`). The model
types the values; a payload whose values have the wrong runtime type is
outside the model (it would make pydantic's `SearchResult` validation
fault, a path the spec scopes out with the observability sink). Scores are
carried as rationals: the code never computes with them, it only passes
literals through. -/
structure SearchItem where
  title : Option String
  url : Option String
  snippet : Option String
  content : Option String
  score : Option ℚ
deriving DecidableEq, Repr

/-- A `div class="result"` of the scraped search page
(`context7_integration.py` lines 129–138): the title anchor may be missing
(the div is then skipped), its `href` attribute may be missing (defaulted
to `""`), and the snippet anchor may be missing (defaulted to `""`). -/
structure ResultDiv where
  title : Option String
  href : Option String
  snippet : Option String
deriving DecidableEq, Repr

/-- `SearchResult` pydantic model, `research_agent.py` lines 37–42. -/
structure SearchResult where
  title : String
  url : String
  snippet : String
  relevance_score : Option ℚ
deriving DecidableEq, Repr

/-- Environment of one `search_web` tool invocation: the configured
credential and the outcome of each provider's network interaction
(`Except.error` models a raised exception). For the primary the payload is
the HTTP status together with the decoded `results` field of a 200
response; for the secondary it is the list of result divs of the scraped
page. -/
structure SearchEnv where
  apiKey : Option String
  primaryNet : Except String (Nat × List SearchItem)
  fallbackNet : Except String (List ResultDiv)

/-- Python's `s.startswith(pre)` (code-point prefix test). -/
def pyStartswith (s pre : String) : Bool :=
  pre.data.isPrefixOf s.data

/-- The guard of `Context7Search.search` / `fetch_content`
(`context7_integration.py` lines 37, 77): `not self.api_key or
self.api_key.startswith("dummy")` — absent, empty, or placeholder
credential means unconfigured. -/
def primaryUnconfigured (apiKey : Option String) : Bool :=
  match apiKey with
  | none => true
  | some k => k == "" || pyStartswith k "dummy"

/-- `Context7Search.search` (`context7_integration.py` lines 26–65),
instrumented with whether the network section was reached: unconfigured
short-circuits to `[]` before any request; a non-200 status or an
exception also yields `[]`. -/
def context7_search_run (env : SearchEnv) : List SearchItem × Bool :=
  if primaryUnconfigured env.apiKey then ([], false)
  else
    (match env.primaryNet with
     | Except.ok (status, results) => if status == 200 then results else []
     | Except.error _ => [], true)

/-- The results of `Context7Search.search`. -/
def context7_search (env : SearchEnv) : List SearchItem :=
  (context7_search_run env).1

/-- `fallback_search` (`context7_integration.py` lines 103–144): scrape the
search page, keep the first `limit` result divs, and turn each div that has
a title anchor into a dict; any exception yields `[]`. -/
def fallback_search (env : SearchEnv) (limit : Nat) : List SearchItem :=
  match env.fallbackNet with
  | Except.error _ => []
  | Except.ok divs =>
    (divs.take limit).filterMap fun d =>
      match d.title with
      | none => none
      | some t =>
        some { title := some t
               url := some (d.href.getD "")
               snippet := some (d.snippet.getD "")
               content := none
               score := none }

/-- The per-item conversion of `search_web` (`research_agent.py`
lines 150–157): `item.get("title", "")`, `item.get("url", "")`,
`item.get("snippet", item.get("content", ""))`, `item.get("score", None)`. -/
def toSearchResult (item : SearchItem) : SearchResult :=
  { title := item.title.getD ""
    url := item.url.getD ""
    snippet := item.snippet.getD (item.content.getD "")
    relevance_score := item.score }

/-- The sentinel returned when the converted result list is empty
(`research_agent.py` lines 166–173). -/
def noResultsSentinel (query : String) : SearchResult :=
  { title := "Search for: " ++ query
    url := ""
    snippet := "No search results available at this time"
    relevance_score := some 0 }

/-- Outcome of one `search_web` run: the returned results and whether the
secondary provider was invoked. -/
structure SearchRun where
  results : List SearchResult
  usedFallback : Bool
deriving DecidableEq, Repr

/-- The `search_web` tool (`research_agent.py` lines 119–186): primary
first; if it yields no results, the secondary with the same query and
limit; convert the items; if the converted list is empty, the sentinel.
`limit` is `ctx.deps.max_search_results`. (The primary forwards `limit`
inside the request payload only, so it does not shape the modelled
response; observability emission is modelled as non-faulting, as the spec
scopes the sink out of the core.) -/
def search_web (env : SearchEnv) (query : String) (limit : Nat) : SearchRun :=
  let primary := context7_search env
  let usedFallback := primary.isEmpty
  let raw := if primary.isEmpty then fallback_search env limit else primary
  let results := raw.map toSearchResult
  { results := if results.isEmpty then [noResultsSentinel query] else results
    usedFallback := usedFallback }

mutual
/-- A node of the fetched HTML document: an element with a tag name and
children, or a text node. The sibling sequence is its own inductive
(`HtmlForest`, isomorphic to a list) so that the functions below are
structurally recursive and compute definitionally. -/
inductive HtmlNode where
  | text (s : String)
  | el (name : String) (children : HtmlForest)
inductive HtmlForest where
  | nil
  | cons (n : HtmlNode) (ns : HtmlForest)
end

mutual
/-- The `script.decompose()` loop of `fallback_fetch`
(`context7_integration.py` lines 171–172): remove every script and style
element, and everything inside it, from a node. -/
def stripNode : HtmlNode → Option HtmlNode
  | HtmlNode.text s => some (HtmlNode.text s)
  | HtmlNode.el name cs =>
    if name == "script" || name == "style" then none
    else some (HtmlNode.el name (stripForest cs))
def stripForest : HtmlForest → HtmlForest
  | HtmlForest.nil => HtmlForest.nil
  | HtmlForest.cons n ns =>
    match stripNode n with
    | none => stripForest ns
    | some m => HtmlForest.cons m (stripForest ns)
end

mutual
/-- `soup.get_text()` (`context7_integration.py` line 175): concatenate all
text nodes in document order. -/
def nodeText : HtmlNode → String
  | HtmlNode.text s => s
  | HtmlNode.el _ cs => forestText cs
def forestText : HtmlForest → String
  | HtmlForest.nil => ""
  | HtmlForest.cons n ns => nodeText n ++ forestText ns
end

mutual
/-- Whether a node still contains a script or style element anywhere. -/
def nodeHasBadTag : HtmlNode → Bool
  | HtmlNode.text _ => false
  | HtmlNode.el name cs =>
    name == "script" || name == "style" || forestHasBadTag cs
def forestHasBadTag : HtmlForest → Bool
  | HtmlForest.nil => false
  | HtmlForest.cons n ns => nodeHasBadTag n || forestHasBadTag ns
end

/-- Fuel-driven splitting of a character sequence on every (non-empty,
non-overlapping, leftmost-first) occurrence of a separator, as Python's
`str.split(sep)`. The fuel is decremented once per retained character, so
`length + 1` fuel always suffices. -/
def splitSepAux (sep : List Char) : Nat → List Char → List (List Char)
  | 0, _ => [[]]
  | _ + 1, [] => [[]]
  | fuel + 1, c :: cs =>
    if sep.isPrefixOf (c :: cs) then
      [] :: splitSepAux sep fuel ((c :: cs).drop sep.length)
    else
      match splitSepAux sep fuel cs with
      | [] => [[c]]
      | p :: ps => (c :: p) :: ps

/-- Split on a separator, Python's `line.split(sep)` for a non-empty
separator. -/
def splitSep (sep : List Char) (cs : List Char) : List (List Char) :=
  splitSepAux sep (cs.length + 1) cs

/-- Python's `str.strip()` restricted to ASCII whitespace (the inputs
settled below use no further Unicode space classes). -/
def trimChars (cs : List Char) : List Char :=
  ((cs.dropWhile Char.isWhitespace).reverse.dropWhile Char.isWhitespace).reverse

/-- `"\n".join`. -/
def joinNl : List (List Char) → List Char
  | [] => []
  | [x] => x
  | x :: xs => x ++ '\n' :: joinNl xs

/-- The whitespace cleanup of `fallback_fetch` (`context7_integration.py`
lines 177–180): split into lines, strip each, split each line on
double-space separators, strip the pieces, and rejoin the non-empty pieces
with newlines. (Lines are modelled as `\n`-separated; Python's
`splitlines` further recognises `\r` and rarer Unicode line breaks.) -/
def pyClean (text : String) : String :=
  let lines := (splitSep ['\n'] text.data).map trimChars
  let chunks := (lines.map (fun line => (splitSep [' ', ' '] line).map trimChars)).flatten
  String.mk (joinNl (chunks.filter (fun c => !c.isEmpty)))

/-- The length limit of `fallback_fetch` (`context7_integration.py`
lines 183–184): `text[:5000] + "..."` when the text exceeds 5000
characters. -/
def pyTruncate (s : String) : String :=
  if s.length > 5000 then String.mk (s.data.take 5000) ++ "..." else s

/-- Whether `sub` occurs as a contiguous subsequence of the second list. -/
def containsList (sub : List Char) : List Char → Bool
  | [] => sub.isEmpty
  | c :: cs => sub.isPrefixOf (c :: cs) || containsList sub cs

/-- Python's `sub in hay` substring test. -/
def strContains (hay sub : String) : Bool :=
  containsList sub.data hay.data

/-- Environment of one `fetch_webpage_content` tool invocation: credential,
primary network outcome (HTTP status and the decoded `content` field of a
200 response — an absent field decodes as `""` via `data.get("content",
"")`), and secondary network outcome (the fetched HTML document, or an
exception). -/
structure FetchEnv where
  apiKey : Option String
  primaryNet : Except String (Nat × String)
  fallbackNet : Except String HtmlForest

/-- `Context7Search.fetch_content` (`context7_integration.py` lines 67–99):
unconfigured yields the placeholder sentence; 200 yields the decoded
content; any other status yields `"Failed to fetch {url}"`; an exception
yields `"Error fetching {url}: {e}"`. -/
def context7_fetch_content (env : FetchEnv) (url : String) : String :=
  if primaryUnconfigured env.apiKey then
    "Content from " ++ url ++ " (Context7 API key required for real data)"
  else
    match env.primaryNet with
    | Except.ok (status, content) =>
      if status == 200 then content else "Failed to fetch " ++ url
    | Except.error e => "Error fetching " ++ url ++ ": " ++ e

/-- `fallback_fetch` (`context7_integration.py` lines 147–189): fetch the
page, drop script/style elements, extract the text, clean the whitespace,
truncate to 5000 characters; any exception yields
`"Error fetching {url}: {e}"`. -/
def fallback_fetch (env : FetchEnv) (url : String) : String :=
  match env.fallbackNet with
  | Except.ok doc => pyTruncate (pyClean (forestText (stripForest doc)))
  | Except.error e => "Error fetching " ++ url ++ ": " ++ e

/-- The `fetch_webpage_content` tool (`research_agent.py` lines 189–231):
primary first; if its output is empty or contains the placeholder marker
`"Context7 API key required"`, the secondary's output is returned instead. -/
def fetch_webpage_content (env : FetchEnv) (url : String) : String :=
  let content := context7_fetch_content env url
  if content == "" || strContains content "Context7 API key required" then
    fallback_fetch env url
  else content

/-- Whether a string contains two consecutive whitespace characters (a
whitespace run that survived collapsing). -/
def hasWsRun : List Char → Bool
  | a :: b :: t => (a.isWhitespace && b.isWhitespace) || hasWsRun (b :: t)
  | _ => false


/-! ## Helper lemmas -/

/-- The no-match branch of the synthesis step (`research_agent.py`
lines 326–337). -/
theorem synthesize_extract_none {raw : String} (q now : String)
    (h : extractBraces raw = none) :
    synthesize raw q now =
      ⟨q, raw,
       ["Research completed using available tools",
        "Multiple sources were consulted",
        "Findings synthesized from web search and content analysis"],
       ["Web search results", "Content analysis"], now⟩ := by
  unfold synthesize
  rw [h]

/-- The exception branch of the synthesis step (`research_agent.py`
lines 338–348). -/
theorem synthesize_decode_fail {raw region : String} (q now : String)
    (h : extractBraces raw = some region)
    (h2 : (Json.parse region).bind (fun j => researchFindingsOfJson j now) = none) :
    synthesize raw q now =
      ⟨q, raw,
       ["Research completed using available tools",
        "Multiple sources were consulted"],
       ["Agent analysis"], now⟩ := by
  unfold synthesize
  simp only [h, h2]

/-- The structured branch of the synthesis step (`research_agent.py`
lines 322–325). -/
theorem synthesize_structured {raw region : String} {f : ResearchFindings} (q now : String)
    (h : extractBraces raw = some region)
    (h2 : (Json.parse region).bind (fun j => researchFindingsOfJson j now) = some f) :
    synthesize raw q now = f := by
  unfold synthesize
  simp only [h, h2]

/-- The timestamp default: either the field is absent and each run gets its
own `now`, or it is present and both runs read the same value. -/
theorem timestampField_now (fields : List (String × Json)) (n1 n2 : String) :
    (timestampField fields n1 = some n1 ∧ timestampField fields n2 = some n2) ∨
    timestampField fields n1 = timestampField fields n2 := by
  unfold timestampField
  cases jsonGet fields "timestamp" with
  | none => exact Or.inl ⟨rfl, rfl⟩
  | some tj => exact Or.inr rfl

/-- Validation does not depend on the generation time except for the
`timestamp` field: with two different `now` values it fails identically or
succeeds with identical `query`, `summary`, `key_findings` and `sources`. -/
theorem researchFindingsOfJson_now (j : Json) (n1 n2 : String) :
    (researchFindingsOfJson j n1 = none ∧ researchFindingsOfJson j n2 = none) ∨
    ∃ q s kf src t1 t2,
      researchFindingsOfJson j n1 = some ⟨q, s, kf, src, t1⟩ ∧
      researchFindingsOfJson j n2 = some ⟨q, s, kf, src, t2⟩ := by
  cases j <;> try (left; exact ⟨rfl, rfl⟩)
  case obj fields =>
  simp only [researchFindingsOfJson]
  cases jsonGet fields "query" <;>
    cases jsonGet fields "summary" <;>
      cases jsonGet fields "key_findings" <;>
        cases jsonGet fields "sources" <;>
          try (left; exact ⟨rfl, rfl⟩)
  rename_i qj sj kfj srcj
  simp only [Option.some_bind]
  cases asStr qj <;>
    cases asStr sj <;>
      cases asStrList kfj <;>
        cases asStrList srcj <;>
          try (left; exact ⟨rfl, rfl⟩)
  rename_i q s kf src
  simp only [Option.some_bind]
  rcases timestampField_now fields n1 n2 with ⟨h1, h2⟩ | heq
  · right; exact ⟨q, s, kf, src, n1, n2, by simp [h1], by simp [h2]⟩
  · cases hv : timestampField fields n1 with
    | none =>
      have hv2 : timestampField fields n2 = none := by rw [← heq, hv]
      left
      exact ⟨by simp [hv], by simp [hv2]⟩
    | some ts =>
      have hv2 : timestampField fields n2 = some ts := by rw [← heq, hv]
      right
      exact ⟨q, s, kf, src, ts, ts, by simp [hv], by simp [hv2]⟩

/-- When a string starts with an opening brace and ends with a closing
brace, the regex extraction returns the whole string. -/
theorem extractBraces_self (s : String) (h1 : s.data.head? = some '\x7b')
    (h2 : s.data.getLast? = some '\x7d') : extractBraces s = some s := by
  obtain ⟨cs⟩ := s
  cases cs with
  | nil => simp at h1
  | cons c t =>
    have hc : c = '\x7b' := by simpa using h1
    subst hc
    have hf : firstIdx '\x7b' ('\x7b' :: t) = some 0 := by simp [firstIdx]
    have hrev : ('\x7b' :: t).reverse.head? = some '\x7d' := by
      rw [List.head?_reverse]; exact h2
    have hlen2 : 2 ≤ ('\x7b' :: t).length := by
      cases t with
      | nil =>
        simp only [List.getLast?] at h2
        exact absurd h2 (by decide)
      | cons d t2 => simp
    obtain ⟨rr, hr⟩ : ∃ rr, ('\x7b' :: t).reverse = '\x7d' :: rr := by
      cases hrv : ('\x7b' :: t).reverse with
      | nil => rw [hrv] at hrev; simp at hrev
      | cons d rr =>
        rw [hrv] at hrev
        simp only [List.head?_cons, Option.some.injEq] at hrev
        exact ⟨rr, by rw [hrev]⟩
    have hg : firstIdx '\x7d' (('\x7b' :: t).reverse) = some 0 := by
      rw [hr]; simp [firstIdx]
    show extractBraces (String.mk ('\x7b' :: t)) = some (String.mk ('\x7b' :: t))
    unfold extractBraces
    rw [show (String.mk ('\x7b' :: t)).data = '\x7b' :: t from rfl, hf, hg]
    have hpos : 0 < ('\x7b' :: t).length - 1 - 0 := by omega
    show (if 0 < ('\x7b' :: t).length - 1 - 0 then
        some (String.mk (List.take (('\x7b' :: t).length - 1 - 0 + 1 - 0)
          (List.drop 0 ('\x7b' :: t)))) else none) = some (String.mk ('\x7b' :: t))
    rw [if_pos hpos, List.drop_zero]
    have harith : ('\x7b' :: t).length - 1 - 0 + 1 - 0 = ('\x7b' :: t).length := by omega
    rw [harith, List.take_length]

/-! ## Claim theorems -/

/-- C1 counterexample: `synthesize` applied to a raw text that is exactly a
valid structured JSON object whose `key_findings` and `sources` fields are
empty lists returns a `ResearchFindings` whose `key_findings` and `sources`
are empty, refuting the claim that they are non-empty for every input. -/
theorem c1_counterexample_empty_lists :
    (synthesize "\x7b\"query\": \"q\", \"summary\": \"s\", \"key_findings\": [], \"sources\": []\x7d"
        "q" "t").key_findings = [] ∧
    (synthesize "\x7b\"query\": \"q\", \"summary\": \"s\", \"key_findings\": [], \"sources\": []\x7d"
        "q" "t").sources = [] :=
  ⟨rfl, rfl⟩

/-- C1 (amended): `synthesize` is total by construction and never
propagates a parsing fault; on either degraded path `key_findings` and
`sources` are non-empty, and otherwise the result is exactly the validated
structured object, whose list fields may be empty when the backend supplied
empty lists. -/
theorem c1_amended_synthesize_total (raw q now : String) :
    ((synthesize raw q now).key_findings ≠ [] ∧ (synthesize raw q now).sources ≠ []) ∨
    (∃ region f, extractBraces raw = some region ∧
      (Json.parse region).bind (fun j => researchFindingsOfJson j now) = some f ∧
      synthesize raw q now = f) := by
  cases hx : extractBraces raw with
  | none =>
    left
    rw [synthesize_extract_none q now hx]
    exact ⟨by simp, by simp⟩
  | some region =>
    cases hb : (Json.parse region).bind (fun j => researchFindingsOfJson j now) with
    | none =>
      left
      rw [synthesize_decode_fail q now hx hb]
      exact ⟨by simp, by simp⟩
    | some f => exact Or.inr ⟨region, f, rfl, hb, synthesize_structured q now hx hb⟩

/-- C5 counterexample: a raw text blob that is exactly a valid structured
JSON object containing the four required fields, but also a `timestamp`
field, yields a `ResearchFindings` whose timestamp is the blob's value
rather than the freshly generated one, refuting the "only timestamp freshly
generated" part of the claim as stated. -/
theorem c5_counterexample_timestamp_override :
    (synthesize
        "\x7b\"query\": \"a\", \"summary\": \"b\", \"key_findings\": [\"c\"], \"sources\": [\"d\"], \"timestamp\": \"1999\"\x7d"
        "q" "NOW").timestamp = "1999" ∧
    ("1999" : String) ≠ "NOW" :=
  ⟨rfl, by decide⟩

/-- C5 (amended): for a raw text blob that is exactly one valid structured
JSON object (it begins with the opening brace and ends with the closing
brace, so the greedy first-to-last-brace match extracts the whole blob)
containing the fields `query`, `summary`, `key_findings` and `sources` with
valid string / string-list values and no `timestamp` field, `synthesize`
reproduces those four fields verbatim and generates the timestamp freshly. -/
theorem c5_amended_roundtrip (raw q now qv sv : String) (kfj srcj : Json)
    (fields : List (String × Json)) (kfv srcv : List String)
    (hhead : raw.data.head? = some '\x7b') (hlast : raw.data.getLast? = some '\x7d')
    (hp : Json.parse raw = some (Json.obj fields))
    (hq : jsonGet fields "query" = some (Json.str qv))
    (hs : jsonGet fields "summary" = some (Json.str sv))
    (hkf : jsonGet fields "key_findings" = some kfj)
    (hkf2 : asStrList kfj = some kfv)
    (hsrc : jsonGet fields "sources" = some srcj)
    (hsrc2 : asStrList srcj = some srcv)
    (hts : jsonGet fields "timestamp" = none) :
    synthesize raw q now = ⟨qv, sv, kfv, srcv, now⟩ := by
  have hx := extractBraces_self raw hhead hlast
  have hb : (Json.parse raw).bind (fun j => researchFindingsOfJson j now)
      = some (⟨qv, sv, kfv, srcv, now⟩ : ResearchFindings) := by
    rw [hp]
    show researchFindingsOfJson (Json.obj fields) now = _
    simp only [researchFindingsOfJson]
    rw [hq, hs, hkf, hsrc]
    simp [asStr, hkf2, hsrc2, timestampField, hts]
  exact synthesize_structured q now hx hb

/-- C5 witness: the amended round-trip theorem applied to a concrete blob. -/
theorem c5_amended_roundtrip_witness :
    synthesize "\x7b\"query\": \"wq\", \"summary\": \"ws\", \"key_findings\": [\"k1\"], \"sources\": [\"s1\"]\x7d"
        "orig" "NOW" = ⟨"wq", "ws", ["k1"], ["s1"], "NOW"⟩ :=
  c5_amended_roundtrip _ "orig" "NOW" "wq" "ws"
    (Json.arr [Json.str "k1"]) (Json.arr [Json.str "s1"])
    [("query", Json.str "wq"), ("summary", Json.str "ws"),
     ("key_findings", Json.arr [Json.str "k1"]), ("sources", Json.arr [Json.str "s1"])]
    ["k1"] ["s1"] rfl rfl rfl rfl rfl rfl rfl rfl rfl rfl

/-- C6 counterexample: on a decode-fail input the single generic source the
code produces is `"Agent analysis"`, not the claim's literal
`"agent analysis"` (and likewise the generic findings are capitalized). -/
theorem c6_counterexample_capitalization :
    (synthesize "\x7bnope\x7d" "q" "t").sources = ["Agent analysis"] ∧
    (synthesize "\x7bnope\x7d" "q" "t").sources ≠ ["agent analysis"] :=
  ⟨rfl, by decide⟩

/-- C6 (amended): the degradation ladder has exactly two degraded shapes,
both using `raw_text` verbatim as `summary` and the original query: with no
brace-delimited region the result has the three generic findings
("Research completed using available tools", "Multiple sources were
consulted", "Findings synthesized from web search and content analysis")
and the two generic sources ("Web search results", "Content analysis");
with a region whose decoding or validation faults it has the first two
generic findings and the single generic source "Agent analysis". -/
theorem c6_amended_degradation_ladder (raw q now : String) :
    (extractBraces raw = none →
      synthesize raw q now =
        ⟨q, raw,
         ["Research completed using available tools",
          "Multiple sources were consulted",
          "Findings synthesized from web search and content analysis"],
         ["Web search results", "Content analysis"], now⟩) ∧
    (∀ region, extractBraces raw = some region →
      (Json.parse region).bind (fun j => researchFindingsOfJson j now) = none →
      synthesize raw q now =
        ⟨q, raw,
         ["Research completed using available tools",
          "Multiple sources were consulted"],
         ["Agent analysis"], now⟩) :=
  ⟨fun h => synthesize_extract_none q now h,
   fun _ h h2 => synthesize_decode_fail q now h h2⟩

/-- C6 witness: both degraded branches at concrete inputs. -/
theorem c6_amended_degradation_ladder_witness :
    synthesize "no structured output here" "q" "t" =
      ⟨"q", "no structured output here",
       ["Research completed using available tools",
        "Multiple sources were consulted",
        "Findings synthesized from web search and content analysis"],
       ["Web search results", "Content analysis"], "t"⟩ ∧
    synthesize "\x7bnot valid json\x7d" "q" "t" =
      ⟨"q", "\x7bnot valid json\x7d",
       ["Research completed using available tools",
        "Multiple sources were consulted"],
       ["Agent analysis"], "t"⟩ :=
  ⟨(c6_amended_degradation_ladder "no structured output here" "q" "t").1 rfl,
   (c6_amended_degradation_ladder "\x7bnot valid json\x7d" "q" "t").2
     "\x7bnot valid json\x7d" rfl rfl⟩

/-- C8: `research` has exactly two outcomes: a backend fault propagated
unchanged to the caller with no findings produced, or a complete
`ResearchFindings` synthesized from the backend's raw text; there is no
third outcome. -/
theorem c8_two_outcomes (b : Except String String) (q now : String) :
    (∃ e, b = Except.error e ∧ research b q now = Except.error e) ∨
    (∃ raw, b = Except.ok raw ∧ research b q now = Except.ok (synthesize raw q now)) := by
  cases b with
  | error e => exact Or.inl ⟨e, rfl, rfl⟩
  | ok raw => exact Or.inr ⟨raw, rfl, rfl⟩

/-- C9: the `query` field equals the caller's argument on both degraded
paths; on the structured path the whole result is the validated object, so
its `query` comes from the parsed blob — and a concrete blob whose `query`
field differs from the argument yields findings whose query is not the
query that was asked. -/
theorem c9_query_provenance :
    (∀ raw q now, extractBraces raw = none → (synthesize raw q now).query = q) ∧
    (∀ raw region q now, extractBraces raw = some region →
      (Json.parse region).bind (fun j => researchFindingsOfJson j now) = none →
      (synthesize raw q now).query = q) ∧
    (∀ raw region q now f, extractBraces raw = some region →
      (Json.parse region).bind (fun j => researchFindingsOfJson j now) = some f →
      synthesize raw q now = f) ∧
    (synthesize "\x7b\"query\": \"other\", \"summary\": \"s\", \"key_findings\": [\"k\"], \"sources\": [\"w\"]\x7d"
        "asked" "t").query ≠ "asked" := by
  refine ⟨?_, ?_, ?_, ?_⟩
  · intro raw q now h
    rw [synthesize_extract_none q now h]
  · intro raw region q now h h2
    rw [synthesize_decode_fail q now h h2]
  · intro raw region q now f h h2
    exact synthesize_structured q now h h2
  · decide

/-- C9 witness: the three general parts at concrete inputs. -/
theorem c9_query_provenance_witness :
    (synthesize "plain text" "orig" "t").query = "orig" ∧
    (synthesize "\x7bbad\x7d" "orig" "t").query = "orig" ∧
    synthesize "\x7b\"query\": \"a\", \"summary\": \"b\", \"key_findings\": [\"c\"], \"sources\": [\"d\"]\x7d"
        "orig" "t" = ⟨"a", "b", ["c"], ["d"], "t"⟩ :=
  ⟨c9_query_provenance.1 "plain text" "orig" "t" rfl,
   c9_query_provenance.2.1 "\x7bbad\x7d" "\x7bbad\x7d" "orig" "t" rfl rfl,
   c9_query_provenance.2.2.1 _ "\x7b\"query\": \"a\", \"summary\": \"b\", \"key_findings\": [\"c\"], \"sources\": [\"d\"]\x7d"
     "orig" "t" ⟨"a", "b", ["c"], ["d"], "t"⟩ rfl rfl⟩

/-- C10: the synthesis step is deterministic modulo timestamp: two runs on
the same raw text and query agree on `query`, `summary`, `key_findings`
and `sources`, whatever the two generation times were. -/
theorem c10_deterministic_modulo_timestamp (raw q n1 n2 : String) :
    (synthesize raw q n1).query = (synthesize raw q n2).query ∧
    (synthesize raw q n1).summary = (synthesize raw q n2).summary ∧
    (synthesize raw q n1).key_findings = (synthesize raw q n2).key_findings ∧
    (synthesize raw q n1).sources = (synthesize raw q n2).sources := by
  cases hx : extractBraces raw with
  | none =>
    rw [synthesize_extract_none q n1 hx, synthesize_extract_none q n2 hx]
    exact ⟨rfl, rfl, rfl, rfl⟩
  | some region =>
    cases hp : Json.parse region with
    | none =>
      rw [synthesize_decode_fail q n1 hx (by rw [hp]; rfl),
          synthesize_decode_fail q n2 hx (by rw [hp]; rfl)]
      exact ⟨rfl, rfl, rfl, rfl⟩
    | some j =>
      rcases researchFindingsOfJson_now j n1 n2 with ⟨h1, h2⟩ | ⟨q', s', kf', src', t1, t2, h1, h2⟩
      · rw [synthesize_decode_fail q n1 hx (by rw [hp]; exact h1),
            synthesize_decode_fail q n2 hx (by rw [hp]; exact h2)]
        exact ⟨rfl, rfl, rfl, rfl⟩
      · rw [synthesize_structured q n1 hx (by rw [hp]; exact h1),
            synthesize_structured q n2 hx (by rw [hp]; exact h2)]
        exact ⟨rfl, rfl, rfl, rfl⟩


/-- C2: `search_web` always returns a non-empty sequence (it is total by
construction, so no provider fault reaches the caller), and when both
providers fail or return empty it returns exactly the one sentinel result,
whose snippet states that no results were available and whose relevance
score is 0. -/
theorem c2_search_nonempty_and_sentinel (env : SearchEnv) (q : String) (limit : Nat) :
    (search_web env q limit).results ≠ [] ∧
    (context7_search env = [] → fallback_search env limit = [] →
      (search_web env q limit).results = [noResultsSentinel q] ∧
      (noResultsSentinel q).snippet = "No search results available at this time" ∧
      (noResultsSentinel q).relevance_score = some 0) := by
  constructor
  · simp only [search_web]
    split <;> split <;> simp_all
  · intro h1 h2
    refine ⟨?_, rfl, rfl⟩
    simp [search_web, h1, h2]

/-- C2 witness: both providers fault for query "xyz": the single sentinel
comes back. -/
theorem c2_search_nonempty_and_sentinel_witness :
    (search_web ⟨none, Except.error "a", Except.error "b"⟩ "xyz" 5).results
        = [noResultsSentinel "xyz"] ∧
    (noResultsSentinel "xyz").snippet = "No search results available at this time" ∧
    (noResultsSentinel "xyz").relevance_score = some 0 :=
  (c2_search_nonempty_and_sentinel ⟨none, Except.error "a", Except.error "b"⟩ "xyz" 5).2 rfl rfl

/-- C3: the secondary provider is invoked exactly when the primary is
unconfigured or the primary provider's client returns an empty sequence
(faults are absorbed into the empty sequence inside the client); an
unconfigured primary never reaches its network section; and a non-empty
primary result suppresses the fallback. -/
theorem c3_fallback_strictly_conditional (env : SearchEnv) (q : String) (limit : Nat) :
    ((search_web env q limit).usedFallback = true ↔
      (primaryUnconfigured env.apiKey = true ∨ context7_search env = [])) ∧
    (primaryUnconfigured env.apiKey = true → (context7_search_run env).2 = false) ∧
    (context7_search env ≠ [] → (search_web env q limit).usedFallback = false) := by
  refine ⟨?_, ?_, ?_⟩
  · simp only [search_web]
    constructor
    · intro h
      exact Or.inr (List.isEmpty_iff.mp h)
    · rintro (h | h)
      · have hempty : context7_search env = [] := by
          simp [context7_search, context7_search_run, h]
        exact List.isEmpty_iff.mpr hempty
      · exact List.isEmpty_iff.mpr h
  · intro h
    simp [context7_search_run, h]
  · intro h
    simp only [search_web]
    simpa [List.isEmpty_iff] using h

/-- C3 witness: an unconfigured environment never touches the network, and
a configured primary returning one result suppresses the fallback. -/
theorem c3_fallback_strictly_conditional_witness :
    (context7_search_run ⟨none, Except.error "a", Except.error "b"⟩).2 = false ∧
    (search_web ⟨some "k", Except.ok (200, [⟨some "T", some "U", some "S", none, none⟩]),
      Except.error "b"⟩ "q" 5).usedFallback = false :=
  ⟨(c3_fallback_strictly_conditional ⟨none, Except.error "a", Except.error "b"⟩ "q" 5).2.1 rfl,
   (c3_fallback_strictly_conditional
      ⟨some "k", Except.ok (200, [⟨some "T", some "U", some "S", none, none⟩]), Except.error "b"⟩
      "q" 5).2.2 (by decide)⟩

mutual
/-- A node surviving `stripNode` contains no script or style element. -/
theorem stripNode_no_bad : (n : HtmlNode) → (m : HtmlNode) → stripNode n = some m →
    nodeHasBadTag m = false
  | HtmlNode.text s, m, h => by
    simp only [stripNode, Option.some.injEq] at h
    subst h
    rfl
  | HtmlNode.el name cs, m, h => by
    simp only [stripNode] at h
    split at h
    · exact Option.noConfusion h
    · next hb =>
      injection h with h
      subst h
      rw [Bool.not_eq_true] at hb
      rcases Bool.or_eq_false_iff.mp hb with ⟨h1, h2⟩
      simp [nodeHasBadTag, h1, h2, stripForest_no_bad cs]
/-- A forest surviving `stripForest` contains no script or style element. -/
theorem stripForest_no_bad : (ns : HtmlForest) → forestHasBadTag (stripForest ns) = false
  | HtmlForest.nil => rfl
  | HtmlForest.cons n ns => by
    cases h : stripNode n with
    | none => simpa [stripForest, h] using stripForest_no_bad ns
    | some m =>
      simp only [stripForest, h, forestHasBadTag, Bool.or_eq_false_iff]
      exact ⟨stripNode_no_bad n m h, stripForest_no_bad ns⟩
end

/-- Text short enough is returned uncut. -/
theorem pyTruncate_of_le {s : String} (h : s.length ≤ 5000) : pyTruncate s = s := by
  unfold pyTruncate
  rw [if_neg (by omega)]

/-- Longer text is cut to exactly its first 5000 characters plus the
3-character marker. -/
theorem pyTruncate_of_gt {s : String} (h : 5000 < s.length) :
    pyTruncate s = String.mk (s.data.take 5000) ++ "..." ∧ (pyTruncate s).length = 5003 := by
  have he : pyTruncate s = String.mk (s.data.take 5000) ++ "..." := by
    unfold pyTruncate
    rw [if_pos (by omega)]
  refine ⟨he, ?_⟩
  rw [he]
  show ((String.mk (s.data.take 5000) ++ "...").data).length = 5003
  rw [String.data_append]
  rw [show (String.mk (s.data.take 5000)).data = s.data.take 5000 from rfl]
  rw [List.length_append, List.length_take]
  rw [show ("..." : String).data.length = 3 from rfl]
  have hsl : 5000 < s.data.length := h
  omega

/-- A substring of the right part occurs in an appended list. -/
theorem containsList_append_right (sub l1 l2 : List Char) (h : containsList sub l2 = true) :
    containsList sub (l1 ++ l2) = true := by
  induction l1 with
  | nil => simpa using h
  | cons c cs ih => simp [containsList, ih]

/-- C7 counterexample: a page whose text node is `"a\t\tb"` comes back from
the secondary provider with the interior tab run intact — the cleanup
splits on double-space separators and strips line ends, so it does not
collapse every whitespace run, refuting that part of the claim. -/
theorem c7_counterexample_tab_run :
    fallback_fetch ⟨none, Except.error "x",
        Except.ok (HtmlForest.cons (HtmlNode.text "a\t\tb") HtmlForest.nil)⟩ "u" = "a\t\tb" ∧
    hasWsRun ("a\t\tb".data) = true :=
  ⟨rfl, rfl⟩

/-- C7 (amended): every page fetched through the secondary provider has its
script/style elements removed before text extraction, has the code's
whitespace cleanup applied (line splitting, stripping, double-space
splitting — which leaves e.g. tab runs intact), and is truncated to exactly
its first 5000 characters plus the marker when the cleaned text exceeds
5000 characters, or returned uncut otherwise. -/
theorem c7_amended_fetch_pipeline (env : FetchEnv) (url : String) (doc : HtmlForest)
    (h : env.fallbackNet = Except.ok doc) :
    fallback_fetch env url = pyTruncate (pyClean (forestText (stripForest doc))) ∧
    forestHasBadTag (stripForest doc) = false ∧
    ((pyClean (forestText (stripForest doc))).length ≤ 5000 →
      fallback_fetch env url = pyClean (forestText (stripForest doc))) ∧
    (5000 < (pyClean (forestText (stripForest doc))).length →
      fallback_fetch env url
          = String.mk ((pyClean (forestText (stripForest doc))).data.take 5000) ++ "..." ∧
        (fallback_fetch env url).length = 5003) := by
  have he : fallback_fetch env url = pyTruncate (pyClean (forestText (stripForest doc))) := by
    unfold fallback_fetch
    rw [h]
  refine ⟨he, stripForest_no_bad doc, fun hle => ?_, fun hgt => ?_⟩
  · rw [he, pyTruncate_of_le hle]
  · rw [he]
    exact pyTruncate_of_gt hgt

/-- C7 witness: the pipeline at a concrete page containing a script
element and a short text. -/
theorem c7_amended_fetch_pipeline_witness :
    fallback_fetch ⟨none, Except.error "x",
        Except.ok (HtmlForest.cons
          (HtmlNode.el "script" (HtmlForest.cons (HtmlNode.text "junk()") HtmlForest.nil))
          (HtmlForest.cons (HtmlNode.text "hello world") HtmlForest.nil))⟩ "u"
      = pyClean (forestText (stripForest (HtmlForest.cons
          (HtmlNode.el "script" (HtmlForest.cons (HtmlNode.text "junk()") HtmlForest.nil))
          (HtmlForest.cons (HtmlNode.text "hello world") HtmlForest.nil)))) ∧
    forestHasBadTag (stripForest (HtmlForest.cons
          (HtmlNode.el "script" (HtmlForest.cons (HtmlNode.text "junk()") HtmlForest.nil))
          (HtmlForest.cons (HtmlNode.text "hello world") HtmlForest.nil))) = false :=
  ⟨(c7_amended_fetch_pipeline ⟨none, Except.error "x",
        Except.ok (HtmlForest.cons
          (HtmlNode.el "script" (HtmlForest.cons (HtmlNode.text "junk()") HtmlForest.nil))
          (HtmlForest.cons (HtmlNode.text "hello world") HtmlForest.nil))⟩ "u" _ rfl).2.2.1
      (by decide),
   (c7_amended_fetch_pipeline ⟨none, Except.error "x",
        Except.ok (HtmlForest.cons
          (HtmlNode.el "script" (HtmlForest.cons (HtmlNode.text "junk()") HtmlForest.nil))
          (HtmlForest.cons (HtmlNode.text "hello world") HtmlForest.nil))⟩ "u" _ rfl).2.1⟩

/-- A string built by appending to "Error fetching " is never empty. -/
theorem errorMsg_ne_empty (url e : String) :
    (("Error fetching " ++ url ++ ": " ++ e : String) == "") = false := by
  rw [beq_eq_false_iff_ne]
  intro h
  have hd : ("Error fetching " ++ url ++ ": " ++ e).data = ("" : String).data :=
    congrArg String.data h
  rw [String.data_append, String.data_append, String.data_append] at hd
  have hl := congrArg List.length hd
  simp only [List.length_append] at hl
  rw [show ("Error fetching " : String).data.length = 15 from rfl,
      show ("" : String).data.length = 0 from rfl] at hl
  omega

/-- A string built by appending to "Failed to fetch " is never empty. -/
theorem failedMsg_ne_empty (url : String) :
    (("Failed to fetch " ++ url : String) == "") = false := by
  rw [beq_eq_false_iff_ne]
  intro h
  have hd : ("Failed to fetch " ++ url).data = ("" : String).data :=
    congrArg String.data h
  rw [String.data_append] at hd
  have hl := congrArg List.length hd
  simp only [List.length_append] at hl
  rw [show ("Failed to fetch " : String).data.length = 16 from rfl,
      show ("" : String).data.length = 0 from rfl] at hl
  omega

/-- C4 counterexample: with an unconfigured primary and a secondary page
with no extractable text, `fetch_webpage_content` returns the empty string,
refuting the claim that fetch returns a non-empty string for every URL. -/
theorem c4_counterexample_empty_result :
    fetch_webpage_content ⟨none, Except.error "x", Except.ok HtmlForest.nil⟩ "u" = "" := rfl

/-- C4 (amended): `fetch_webpage_content` is total (faults become strings,
never exceptions); an unconfigured primary, a 200 response whose content is
empty or holds the placeholder marker, each hand over to the secondary
provider, whose output is returned verbatim (and may be empty); an
exception in either tier yields "Error fetching {url}: {fault}" naming the
URL and the underlying fault; a non-2xx primary status yields
"Failed to fetch {url}", naming only the URL. -/
theorem c4_amended_fetch_tiers (env : FetchEnv) (url : String) :
    (primaryUnconfigured env.apiKey = true →
      fetch_webpage_content env url = fallback_fetch env url) ∧
    (∀ c, env.primaryNet = Except.ok (200, c) → primaryUnconfigured env.apiKey = false →
      ((c == "" || strContains c "Context7 API key required") = true →
        fetch_webpage_content env url = fallback_fetch env url) ∧
      ((c == "" || strContains c "Context7 API key required") = false →
        fetch_webpage_content env url = c)) ∧
    (∀ e, env.primaryNet = Except.error e → primaryUnconfigured env.apiKey = false →
      strContains ("Error fetching " ++ url ++ ": " ++ e) "Context7 API key required" = false →
      fetch_webpage_content env url = "Error fetching " ++ url ++ ": " ++ e) ∧
    (∀ st c, env.primaryNet = Except.ok (st, c) → primaryUnconfigured env.apiKey = false →
      (st == 200) = false →
      strContains ("Failed to fetch " ++ url) "Context7 API key required" = false →
      fetch_webpage_content env url = "Failed to fetch " ++ url) ∧
    (∀ e, env.fallbackNet = Except.error e →
      fallback_fetch env url = "Error fetching " ++ url ++ ": " ++ e) := by
  refine ⟨?_, ?_, ?_, ?_, ?_⟩
  · intro h
    have hcont : context7_fetch_content env url
        = "Content from " ++ url ++ " (Context7 API key required for real data)" := by
      unfold context7_fetch_content
      rw [if_pos h]
    have hc : strContains ("Content from " ++ url ++ " (Context7 API key required for real data)")
        "Context7 API key required" = true := by
      unfold strContains
      rw [String.data_append]
      exact containsList_append_right _ _ _ (by decide)
    unfold fetch_webpage_content
    rw [hcont, if_pos (by rw [hc]; simp)]
  · intro c hnet hconf
    have hcont : context7_fetch_content env url = c := by
      unfold context7_fetch_content
      rw [if_neg (by simp [hconf]), hnet]
      rfl
    constructor
    · intro hcnd
      unfold fetch_webpage_content
      rw [hcont, if_pos hcnd]
    · intro hcnd
      unfold fetch_webpage_content
      rw [hcont, if_neg (by simp [hcnd])]
  · intro e hnet hconf hnc
    have hcont : context7_fetch_content env url = "Error fetching " ++ url ++ ": " ++ e := by
      unfold context7_fetch_content
      rw [if_neg (by simp [hconf]), hnet]
    unfold fetch_webpage_content
    rw [hcont, if_neg (by rw [errorMsg_ne_empty, hnc]; simp)]
  · intro st c hnet hconf hst hnc
    have hcont : context7_fetch_content env url = "Failed to fetch " ++ url := by
      unfold context7_fetch_content
      rw [if_neg (by simp [hconf]), hnet]
      simp [hst]
    unfold fetch_webpage_content
    rw [hcont, if_neg (by rw [failedMsg_ne_empty, hnc]; simp)]
  · intro e h
    unfold fallback_fetch
    rw [h]

/-- C4 witness: the five tiers at concrete environments. -/
theorem c4_amended_fetch_tiers_witness :
    fetch_webpage_content ⟨none, Except.error "x",
        Except.ok (HtmlForest.cons (HtmlNode.text "page text") HtmlForest.nil)⟩ "u"
      = fallback_fetch ⟨none, Except.error "x",
        Except.ok (HtmlForest.cons (HtmlNode.text "page text") HtmlForest.nil)⟩ "u" ∧
    fetch_webpage_content ⟨some "k", Except.ok (200, "real content"), Except.error "b"⟩ "u"
      = "real content" ∧
    fetch_webpage_content ⟨some "k", Except.error "boom", Except.error "b"⟩ "u"
      = "Error fetching " ++ "u" ++ ": " ++ "boom" ∧
    fetch_webpage_content ⟨some "k", Except.ok (404, "x"), Except.error "b"⟩ "u"
      = "Failed to fetch " ++ "u" ∧
    fallback_fetch ⟨some "k", Except.ok (200, "c"), Except.error "down"⟩ "u"
      = "Error fetching " ++ "u" ++ ": " ++ "down" :=
  ⟨(c4_amended_fetch_tiers ⟨none, Except.error "x",
      Except.ok (HtmlForest.cons (HtmlNode.text "page text") HtmlForest.nil)⟩ "u").1 rfl,
   ((c4_amended_fetch_tiers ⟨some "k", Except.ok (200, "real content"), Except.error "b"⟩
      "u").2.1 "real content" rfl rfl).2 (by decide),
   (c4_amended_fetch_tiers ⟨some "k", Except.error "boom", Except.error "b"⟩
      "u").2.2.1 "boom" rfl rfl (by decide),
   (c4_amended_fetch_tiers ⟨some "k", Except.ok (404, "x"), Except.error "b"⟩
      "u").2.2.2.1 404 "x" rfl rfl (by decide) (by decide),
   (c4_amended_fetch_tiers ⟨some "k", Except.ok (200, "c"), Except.error "down"⟩
      "u").2.2.2.2 "down" rfl⟩
